import Mathlib

/-!
# Verification of the webai tier-gating, quota and chat-orchestration logic

This file gives a shallow embedding of the quota / tier-policy functions in
`src/src/lib/supabase.ts`, the `sendMessage` orchestration and assistant-message
normalization in `src/src/pages/ChatPage.tsx`, and the local-first conversation
persistence (`updateMessages`) in the application component, together with
theorems settling the specification's testable properties.

Modelling conventions:
* JavaScript numbers holding integer counters are modelled as `Int`
  (`Infinity` gets its own constructor in `JSNum`).
* ISO timestamp strings are modelled as `String`; `s.split('T')[0]` is
  `dateOnly`.
* Remote calls against the hosted database are modelled by explicit state
  passing over the profile row (`Option UserProfile`: `none` is "no row /
  read error") plus a record of failure-injection flags (`Net`) saying which
  remote calls succeed, since the service is reached over the network.
* The several `new Date()` calls inside one function body are modelled as a
  single instant `Env.nowISO`.
-/

namespace WebAI

/-! ## Tier policy (src/src/lib/supabase.ts, lines 37-65) -/

inductive Tier
  | free
  | pro
  deriving DecidableEq, Repr

/-- `TIER_LIMITS.free.models` (src/src/lib/supabase.ts:40-46): the fixed
free-tier model allow-list. -/
def TIER_LIMITS_free_models : List String :=
  [ "meta-llama/llama-3.1-70b-instruct"
  , "meta-llama/llama-3.1-8b-instruct"
  , "mistralai/mixtral-8x7b-instruct"
  , "google/gemini-flash-1.5"
  , "openai/gpt-3.5-turbo" ]

/-- `TIER_LIMITS.free.messagesPerDay` (src/src/lib/supabase.ts:39). -/
def TIER_LIMITS_free_messagesPerDay : Int := 10

/-- `isModelAvailable` (src/src/lib/supabase.ts:62-65). -/
def isModelAvailable (modelId : String) (tier : Tier) : Bool :=
  if tier = Tier.pro then true
  else TIER_LIMITS_free_models.contains modelId

/-! ## Profile and quota service (src/src/lib/supabase.ts, lines 68-133) -/

/-- The `user_profiles` row fields read by the quota functions
(`tier, messages_used_today, last_usage_reset`). `last_usage_reset` is the
stored ISO timestamp string. -/
structure UserProfile where
  tier : Tier
  messages_used_today : Int
  last_usage_reset : String
  deriving DecidableEq, Repr

/-- `s.split('T')[0]`: the date part of an ISO timestamp string, i.e. the
prefix before the first `'T'`. -/
def dateOnly (s : String) : String :=
  ⟨s.data.takeWhile fun c => c ≠ 'T'⟩

/-- JavaScript `String.prototype.trim`: strip whitespace from both ends. -/
def strTrim (s : String) : String :=
  ⟨((s.data.dropWhile Char.isWhitespace).reverse.dropWhile Char.isWhitespace).reverse⟩

/-- The service clock: `new Date().toISOString()` at the instant of the call. -/
structure Env where
  nowISO : String
  deriving DecidableEq, Repr

/-- `new Date().toISOString().split('T')[0]` (src/src/lib/supabase.ts:80). -/
def Env.today (e : Env) : String := dateOnly e.nowISO

/-- A JavaScript number that is either an integer or `Infinity`
(the pro-tier return value of `getRemainingMessages`). -/
inductive JSNum
  | num (n : Int)
  | inf
  deriving DecidableEq, Repr

/-- The `remaining <= 0` test of src/src/lib/supabase.ts:103
(`Infinity <= 0` is false). -/
def JSNum.leZero : JSNum → Bool
  | JSNum.num n => n ≤ 0
  | JSNum.inf => false

/-- Failure injection for the remote database calls: which of the four
network operations issued by the quota functions report success. -/
structure Net where
  profileReadOk : Bool
  resetUpdateOk : Bool
  fallbackReadOk : Bool
  fallbackWriteOk : Bool
  deriving DecidableEq, Repr

/-- `getRemainingMessages` (src/src/lib/supabase.ts:68-97), as a function of
the clock, the remote-call outcomes and the user's profile row; returns the
value of the promise and the profile row after the call.  The initial select
yields `error || !profile` exactly when the row is absent or
`net.profileReadOk` is false. -/
def getRemainingMessages (env : Env) (net : Net) (db : Option UserProfile) :
    JSNum × Option UserProfile :=
  match (if net.profileReadOk then db else none) with
  | none => (JSNum.num 0, db)
  | some profile =>
    if profile.tier = Tier.pro then (JSNum.inf, db)
    else
      let today := env.today
      let lastReset := dateOnly profile.last_usage_reset
      if lastReset ≠ today then
        (JSNum.num TIER_LIMITS_free_messagesPerDay,
          if net.resetUpdateOk then
            some { profile with messages_used_today := 0, last_usage_reset := env.nowISO }
          else db)
      else
        (JSNum.num (max 0 (TIER_LIMITS_free_messagesPerDay - profile.messages_used_today)), db)

/-- `incrementMessageUsage` (src/src/lib/supabase.ts:100-133).  The primary
update (lines 105-111) writes the un-awaited query-builder object
`supabase.rpc('increment_messages')` into the INTEGER column
`messages_used_today`; the data service (whose schema is part of this
repository) rejects that payload, so `error` is always set and the fallback
read-modify-write of lines 113-130 always runs.  The fallback's
`(profile.messages_used_today || 0) + 1` is `+ 1` on the non-null INTEGER
column. -/
def incrementMessageUsage (env : Env) (net : Net) (db : Option UserProfile) :
    Bool × Option UserProfile :=
  let r := getRemainingMessages env net db
  if r.1.leZero then (false, r.2)
  else
    match (if net.fallbackReadOk then r.2 else none) with
    | some profile =>
        (true,
          if net.fallbackWriteOk then
            some { profile with
                     messages_used_today := profile.messages_used_today + 1,
                     last_usage_reset := env.nowISO }
          else r.2)
    | none => (true, r.2)

/-! ## Chat orchestration (src/src/pages/ChatPage.tsx) -/

inductive Role
  | user
  | assistant
  deriving DecidableEq, Repr

/-- A user-authored image attachment (src/src/pages/ChatPage.tsx:4-8);
`url` is the base64 data URL. -/
structure Attachment where
  url : String
  name : String
  deriving DecidableEq, Repr

/-- A generated image extracted from the inference response
(src/src/pages/ChatPage.tsx:10-13). -/
structure GeneratedImage where
  url : String
  index : Int
  deriving DecidableEq, Repr

/-- The chat `Message` shape (src/src/pages/ChatPage.tsx:15-21); optional
fields that the code leaves `undefined` are `none`. -/
structure Message where
  role : Role
  content : String
  attachments : Option (List Attachment) := none
  reasoning : Option String := none
  generatedImages : Option (List GeneratedImage) := none
  deriving DecidableEq, Repr

/-- One element of `msg.images` in the inference response
(src/src/pages/ChatPage.tsx:235): `image_url_url` is the nested
`img?.image_url?.url`, `url` is `img?.url`, `index` is `img.index`. -/
structure RawImage where
  image_url_url : Option String
  url : Option String
  index : Option Int
  deriving DecidableEq, Repr

/-- JavaScript `a || b` on two possibly-absent strings: the left operand
wins unless it is absent or empty (falsy). -/
def jsOrStr (a b : Option String) : Option String :=
  match a with
  | some s => if s = "" then b else some s
  | none => b

/-- JavaScript truthiness of a possibly-absent string (`if (url)`). -/
def truthyStr (o : Option String) : Option String :=
  match o with
  | some s => if s = "" then none else some s
  | none => none

/-- The generated-image extraction loop (src/src/pages/ChatPage.tsx:233-241):
`const url = img?.image_url?.url || img?.url; if (url) push({url, index: img.index ?? idx})`.
`none` for `images` covers `msg.images` being absent or not an array. -/
def extractGeneratedImages (images : Option (List RawImage)) : List GeneratedImage :=
  match images with
  | none => []
  | some imgs =>
      imgs.enum.filterMap fun p =>
        match truthyStr (jsOrStr p.2.image_url_url p.2.url) with
        | some u => some { url := u, index := p.2.index.getD (p.1 : Int) }
        | none => none

/-- The synthesized placeholder of src/src/pages/ChatPage.tsx:253. -/
def imagesPlaceholder (n : Nat) : String :=
  "🖼️ Generated " ++ toString n ++ " image" ++ (if n > 1 then "s" else "")

/-- Construction of the assistant message from the inference response fields
(src/src/pages/ChatPage.tsx:232-261).  `content`/`reasoning` are
`msg.content`/`msg.reasoning` (absent modelled as `none`); `msg.x || ''`
is `Option.getD x ""`. -/
def mkAssistantMessage (content reasoning : Option String)
    (images : Option (List RawImage)) : Message :=
  let generatedImages := extractGeneratedImages images
  let rawContent := content.getD ""
  let reasoningS := reasoning.getD ""
  let d1 := rawContent
  let d2 := if d1 = "" ∧ reasoningS ≠ "" then reasoningS else d1
  let d3 :=
    if d2 = "" ∧ generatedImages.length > 0 then imagesPlaceholder generatedImages.length
    else d2
  { role := Role.assistant
  , content := d3
  , reasoning := if reasoningS ≠ "" ∧ reasoningS ≠ d3 then some reasoningS else none
  , generatedImages := if generatedImages.length > 0 then some generatedImages else none }

/-- The empty-response note rendered at src/src/pages/ChatPage.tsx:397-400. -/
def emptyResponseMarker : String := "⚠️ The model returned an empty response."

/-- The primary content the message renderer displays for a message
(src/src/pages/ChatPage.tsx:378-400): the text content when truthy, else
the explicit empty-response note when the message is assistant-authored and
neither reasoning nor generated images are present. -/
def renderedPrimary (m : Message) : String :=
  if m.content ≠ "" then m.content
  else if m.reasoning.isNone ∧ (m.generatedImages.getD []).isEmpty ∧ m.role = Role.assistant then
    emptyResponseMarker
  else ""

/-- The user message appended by `sendMessage`
(src/src/pages/ChatPage.tsx:131,146,169,181-185). -/
def mkUserMessage (input : String) (attachments : List Attachment) : Message :=
  { role := Role.user
  , content := input
  , attachments := if attachments.length > 0 then some attachments else none }

/-- The locked-model assistant message (src/src/pages/ChatPage.tsx:132-135). -/
def lockedModelMessage (modelId : String) : Message :=
  { role := Role.assistant
  , content := "🔒 The model \"" ++ modelId ++
      "\" is only available to Pro users. Please upgrade to Pro or select a free model in Settings." }

/-- The daily-limit assistant message (src/src/pages/ChatPage.tsx:147-150). -/
def limitReachedMessage : Message :=
  { role := Role.assistant
  , content := "⚠️ You have reached your daily message limit. Upgrade to Pro for unlimited messages, or wait until tomorrow for your limit to reset." }

/-- The consume-failed assistant message (src/src/pages/ChatPage.tsx:170-173). -/
def unableToSendMessage : Message :=
  { role := Role.assistant
  , content := "⚠️ Unable to send message. You may have reached your daily limit." }

/-- The generic failure assistant message (src/src/pages/ChatPage.tsx:274). -/
def requestErrorMessage : Message :=
  { role := Role.assistant
  , content := "Sorry, there was an error processing your request. Please check your API key and try again." }

/-- Outcome of the inference fetch: `fail` covers a network error, a non-2xx
status and a response without choices (all reach the catch block); `ok`
carries `choices[0].message`'s `content`, `reasoning` and `images`. -/
inductive FetchOutcome
  | fail
  | ok (content reasoning : Option String) (images : Option (List RawImage))
  deriving DecidableEq, Repr

/-- The props `sendMessage` closes over (src/src/pages/ChatPage.tsx:23-45);
`envApiKey` is `import.meta.env.VITE_OPENROUTER_API_KEY` (`""` when unset),
and `canUseModel` is `isModelAvailable · tier` (src/src/contexts/AuthContext.tsx:240-242). -/
structure ChatProps where
  tier : Tier
  selectedModel : String
  remainingMessages : Int
  apiKey : String
  envApiKey : String
  deriving DecidableEq, Repr

/-- The component state `sendMessage` reads (src/src/pages/ChatPage.tsx:46-48). -/
structure ChatState where
  messages : List Message
  input : String
  attachments : List Attachment
  isLoading : Bool
  deriving DecidableEq, Repr

/-- Observable effects of one `sendMessage` call: the resulting message list
and input state, whether `consumeMessage()` was invoked, whether the
inference API was fetched, and whether `onNeedApiKey` fired. -/
structure SendEffects where
  messages : List Message
  input : String
  attachments : List Attachment
  consumeCalled : Bool
  networkCalled : Bool
  neededApiKey : Bool
  deriving DecidableEq, Repr

/-- `sendMessage` (src/src/pages/ChatPage.tsx:124-279), with the results of
the two awaited external calls (`consumeMessage()` and the inference fetch)
passed in as oracle values. -/
def sendMessage (props : ChatProps) (st : ChatState)
    (consumeResult : Bool) (fetch : FetchOutcome) : SendEffects :=
  if (strTrim st.input = "" ∧ st.attachments.length = 0) ∨ st.isLoading then
    { messages := st.messages, input := st.input, attachments := st.attachments
    , consumeCalled := false, networkCalled := false, neededApiKey := false }
  else if ¬ isModelAvailable props.selectedModel props.tier then
    { messages := st.messages ++
        [mkUserMessage st.input st.attachments, lockedModelMessage props.selectedModel]
    , input := "", attachments := []
    , consumeCalled := false, networkCalled := false, neededApiKey := false }
  else if props.tier = Tier.free ∧ props.remainingMessages ≤ 0 then
    { messages := st.messages ++
        [mkUserMessage st.input st.attachments, limitReachedMessage]
    , input := "", attachments := []
    , consumeCalled := false, networkCalled := false, neededApiKey := false }
  else
    let effectiveApiKey := if props.apiKey = "" then props.envApiKey else props.apiKey
    if effectiveApiKey = "" then
      { messages := st.messages, input := st.input, attachments := st.attachments
      , consumeCalled := false, networkCalled := false, neededApiKey := true }
    else if ¬ consumeResult ∧ props.tier = Tier.free then
      { messages := st.messages ++
          [mkUserMessage st.input st.attachments, unableToSendMessage]
      , input := "", attachments := []
      , consumeCalled := true, networkCalled := false, neededApiKey := false }
    else
      let newMessages := st.messages ++ [mkUserMessage st.input st.attachments]
      match fetch with
      | FetchOutcome.fail =>
          { messages := newMessages ++ [requestErrorMessage], input := "", attachments := []
          , consumeCalled := true, networkCalled := true, neededApiKey := false }
      | FetchOutcome.ok c r i =>
          { messages := newMessages ++ [mkAssistantMessage c r i], input := "", attachments := []
          , consumeCalled := true, networkCalled := true, neededApiKey := false }

/-! ## Local-first conversation persistence (src/unnamed/part_002, `AppContent`) -/

/-- The local `Chat` shape (src/unnamed/part_002:338-343); `createdAt` is
not needed by the claims. -/
structure Chat where
  id : String
  title : String
  messages : List Message
  deriving DecidableEq, Repr

/-- The chat-list state `updateMessages` operates on (`chats`,
`currentChatIdRef`). -/
structure AppState where
  chats : List Chat
  currentChatId : Option String
  deriving DecidableEq, Repr

/-- `generateChatTitle` (src/unnamed/part_002:487-491). -/
def generateChatTitle (messages : List Message) : String :=
  match messages with
  | [] => "New Chat"
  | m :: _ => if m.content.length > 30 then m.content.take 30 ++ "..." else m.content

/-- Outcome of the remote persistence attempted by the new-thread branch of
`updateMessages`: `createConversation` may throw or resolve to `null`, one
of the `addMessage` calls may throw, or everything succeeds yielding the
remote conversation id. -/
inductive PersistOutcome
  | createThrows
  | createNull
  | addMessageThrows (i : Nat)
  | success (newId : String)
  deriving DecidableEq, Repr

/-- `updateMessages` (src/unnamed/part_002:534-612).  `loggedIn` is
`user` being non-null, `nowId` is the `Date.now()` string used for the
temporary id.  In the new-thread branch the temp chat is inserted first;
the try block then rewrites the temp id to the remote id only when
`createConversation` resolved non-null and every `addMessage` succeeded,
and the catch block leaves the temp chat (with all its messages) in place.
In the existing-thread branch the remote `addMessage`/`updateConversationTitle`
calls are fire-and-forget, so the local result does not depend on them. -/
def updateMessages (loggedIn : Bool) (nowId : String) (st : AppState)
    (outcome : PersistOutcome) (messages : List Message) : AppState :=
  if ¬ loggedIn then st
  else
    match st.currentChatId with
    | none =>
      let title := generateChatTitle messages
      let tempId := "temp-" ++ nowId
      let tempChat : Chat := { id := tempId, title := title, messages := messages }
      let st1 : AppState := { chats := tempChat :: st.chats, currentChatId := some tempId }
      match outcome with
      | PersistOutcome.success newId =>
          { chats := st1.chats.map fun c => if c.id = tempId then { c with id := newId } else c
          , currentChatId := some newId }
      | _ => st1
    | some activeChatId =>
      let existingChat := st.chats.find? fun c => c.id = activeChatId
      let newTitle : Option String :=
        match existingChat with
        | some c => some (if c.title = "New Chat" then generateChatTitle messages else c.title)
        | none => none
      { chats := st.chats.map fun chat =>
          if chat.id = activeChatId then
            { chat with
                messages := messages
              , title :=
                  match newTitle with
                  | some t => if t = "" then chat.title else t
                  | none => chat.title }
          else chat
      , currentChatId := st.currentChatId }

/-! ## Claim theorems: tier policy -/

/-- C1: for every model identifier `m`, `isModelAvailable m pro = true`, and
`isModelAvailable m free = true` exactly when `m` is a member of the fixed
free-tier allow-list `TIER_LIMITS.free.models`. -/
theorem isModelAvailable_pro_always_free_by_list (m : String) :
    isModelAvailable m Tier.pro = true ∧
      (isModelAvailable m Tier.free = true ↔ m ∈ TIER_LIMITS_free_models) := by
  constructor
  · rfl
  · simp [isModelAvailable]

/-! ## Claim theorems: quota service -/

/-- Helper: the same-day free-tier branch of `getRemainingMessages` returns
`max 0 (10 - used)` and leaves the row untouched. -/
theorem grm_free_same_day (env : Env) (net : Net) (p : UserProfile)
    (hread : net.profileReadOk = true) (htier : p.tier = Tier.free)
    (hday : dateOnly p.last_usage_reset = env.today) :
    getRemainingMessages env net (some p) =
      (JSNum.num (max 0 (10 - p.messages_used_today)), some p) := by
  unfold getRemainingMessages
  simp [hread, htier, hday, TIER_LIMITS_free_messagesPerDay]

/-- Helper: when the first component of `getRemainingMessages` is `0`, the
call did not take the rollover branch, so the profile row is unchanged. -/
theorem grm_snd_eq_of_fst_zero (env : Env) (net : Net) (db : Option UserProfile)
    (h : (getRemainingMessages env net db).1 = JSNum.num 0) :
    (getRemainingMessages env net db).2 = db := by
  unfold getRemainingMessages at h ⊢
  cases hr : (if net.profileReadOk then db else none) with
  | none => rfl
  | some p =>
    rw [hr] at h
    by_cases hp : p.tier = Tier.pro
    · simp [hp] at h
    · simp only [hp, if_false] at h ⊢
      by_cases hd : dateOnly p.last_usage_reset ≠ env.today
      · simp [hd, TIER_LIMITS_free_messagesPerDay] at h
      · simp [hd]

/-- C2: for a free-tier profile with `messages_used_today = k` and
`last_usage_reset` on the current date, `getRemainingMessages` returns
`max 0 (10 - k)` and does not modify the profile row. -/
theorem getRemainingMessages_same_day_value (env : Env) (net : Net) (p : UserProfile)
    (hread : net.profileReadOk = true) (htier : p.tier = Tier.free)
    (hday : dateOnly p.last_usage_reset = env.today) :
    getRemainingMessages env net (some p) =
      (JSNum.num (max 0 (10 - p.messages_used_today)), some p) :=
  grm_free_same_day env net p hread htier hday

/-- Witness for C2: a free profile with 3 messages used today has 7 left
and is not modified. -/
theorem getRemainingMessages_same_day_value_witness :
    getRemainingMessages { nowISO := "2026-10-11T09:00:00.000Z" }
        { profileReadOk := true, resetUpdateOk := true
        , fallbackReadOk := true, fallbackWriteOk := true }
        (some { tier := Tier.free, messages_used_today := 3
              , last_usage_reset := "2026-10-11T00:05:00.000Z" }) =
      (JSNum.num 7,
        some { tier := Tier.free, messages_used_today := 3
             , last_usage_reset := "2026-10-11T00:05:00.000Z" }) := by
  rw [getRemainingMessages_same_day_value _ _ _ rfl rfl (by decide)]
  decide

/-- C3: for a free-tier profile whose stored reset date differs from the
current (UTC) date, one call to `getRemainingMessages` resets
`messages_used_today` to 0 (stamping the reset time) and returns 10. -/
theorem getRemainingMessages_rollover_resets (env : Env) (net : Net) (p : UserProfile)
    (hread : net.profileReadOk = true) (hupd : net.resetUpdateOk = true)
    (htier : p.tier = Tier.free)
    (hday : dateOnly p.last_usage_reset ≠ env.today) :
    getRemainingMessages env net (some p) =
      (JSNum.num 10,
        some { p with messages_used_today := 0, last_usage_reset := env.nowISO }) := by
  unfold getRemainingMessages
  simp [hread, hupd, htier, hday, TIER_LIMITS_free_messagesPerDay]

/-- Witness for C3: a free profile last reset yesterday is reset to 0 used
messages and sees the full allowance of 10. -/
theorem getRemainingMessages_rollover_resets_witness :
    getRemainingMessages { nowISO := "2026-10-11T09:00:00.000Z" }
        { profileReadOk := true, resetUpdateOk := true
        , fallbackReadOk := true, fallbackWriteOk := true }
        (some { tier := Tier.free, messages_used_today := 9
              , last_usage_reset := "2026-10-10T22:00:00.000Z" }) =
      (JSNum.num 10,
        some { tier := Tier.free, messages_used_today := 0
             , last_usage_reset := "2026-10-11T09:00:00.000Z" }) := by
  rw [getRemainingMessages_rollover_resets _ _ _ rfl rfl rfl (by decide)]

/-- C4: whenever the derived remaining message count is 0,
`incrementMessageUsage` returns `false` and performs no mutation: the
profile row (both `messages_used_today` and `last_usage_reset`) is exactly
what it was before the call. -/
theorem incrementMessageUsage_zero_no_mutation (env : Env) (net : Net)
    (db : Option UserProfile)
    (h : (getRemainingMessages env net db).1 = JSNum.num 0) :
    incrementMessageUsage env net db = (false, db) := by
  have h2 := grm_snd_eq_of_fst_zero env net db h
  simp [incrementMessageUsage, h, h2, JSNum.leZero]

/-- Witness for C4: a free profile that used all 10 messages today gets
`false` and keeps its row unchanged. -/
theorem incrementMessageUsage_zero_no_mutation_witness :
    incrementMessageUsage { nowISO := "2026-10-11T09:00:00.000Z" }
        { profileReadOk := true, resetUpdateOk := true
        , fallbackReadOk := true, fallbackWriteOk := true }
        (some { tier := Tier.free, messages_used_today := 10
              , last_usage_reset := "2026-10-11T00:05:00.000Z" }) =
      (false,
        some { tier := Tier.free, messages_used_today := 10
             , last_usage_reset := "2026-10-11T00:05:00.000Z" }) :=
  incrementMessageUsage_zero_no_mutation _ _ _ (by decide)

/-- C5: on a free-tier profile with 5 messages used today (5 remaining,
reset date current), `incrementMessageUsage` returns `true`, increments
`messages_used_today` by exactly 1, and a subsequent `getRemainingMessages`
read returns 4. -/
theorem incrementMessageUsage_consumes_exactly_one (env : Env) (net : Net) (p : UserProfile)
    (hread : net.profileReadOk = true)
    (hfread : net.fallbackReadOk = true)
    (hfwrite : net.fallbackWriteOk = true)
    (htier : p.tier = Tier.free)
    (hused : p.messages_used_today = 5)
    (hday : dateOnly p.last_usage_reset = env.today) :
    incrementMessageUsage env net (some p) =
      (true, some { p with messages_used_today := 6, last_usage_reset := env.nowISO })
    ∧ (getRemainingMessages env net
        (incrementMessageUsage env net (some p)).2).1 = JSNum.num 4 := by
  have hg : getRemainingMessages env net (some p) = (JSNum.num 5, some p) := by
    rw [grm_free_same_day env net p hread htier hday, hused]
    norm_num
  have hmain : incrementMessageUsage env net (some p) =
      (true, some { p with messages_used_today := 6, last_usage_reset := env.nowISO }) := by
    simp [incrementMessageUsage, hg, JSNum.leZero, hfread, hfwrite, hused]
  refine ⟨hmain, ?_⟩
  rw [hmain]
  rw [grm_free_same_day env net
    { p with messages_used_today := 6, last_usage_reset := env.nowISO } hread htier rfl]
  norm_num

/-- Witness for C5: a concrete free profile with 5 used messages is
incremented to 6, the call returns `true`, and the next read shows 4. -/
theorem incrementMessageUsage_consumes_exactly_one_witness :
    incrementMessageUsage { nowISO := "2026-10-11T09:00:00.000Z" }
        { profileReadOk := true, resetUpdateOk := true
        , fallbackReadOk := true, fallbackWriteOk := true }
        (some { tier := Tier.free, messages_used_today := 5
              , last_usage_reset := "2026-10-11T00:05:00.000Z" }) =
      (true,
        some { tier := Tier.free, messages_used_today := 6
             , last_usage_reset := "2026-10-11T09:00:00.000Z" })
    ∧ (getRemainingMessages { nowISO := "2026-10-11T09:00:00.000Z" }
        { profileReadOk := true, resetUpdateOk := true
        , fallbackReadOk := true, fallbackWriteOk := true }
        (incrementMessageUsage { nowISO := "2026-10-11T09:00:00.000Z" }
          { profileReadOk := true, resetUpdateOk := true
          , fallbackReadOk := true, fallbackWriteOk := true }
          (some { tier := Tier.free, messages_used_today := 5
                , last_usage_reset := "2026-10-11T00:05:00.000Z" })).2).1 = JSNum.num 4 :=
  incrementMessageUsage_consumes_exactly_one _ _ _ rfl rfl rfl rfl rfl (by decide)

/-- C9: whenever the derived remaining count is positive,
`incrementMessageUsage` returns `true` for every combination of remote-call
outcomes — in particular even when the primary update has failed and the
fallback read-modify-write fails too (second conjunct: with the fallback
read failing, the row is left exactly as `getRemainingMessages` left it,
yet `true` is returned), so the boolean never indicates persistence. -/
theorem incrementMessageUsage_true_whenever_positive (env : Env) (net : Net)
    (db : Option UserProfile)
    (h : (getRemainingMessages env net db).1.leZero = false) :
    (incrementMessageUsage env net db).1 = true
    ∧ (net.fallbackReadOk = false →
        incrementMessageUsage env net db = (true, (getRemainingMessages env net db).2)) := by
  constructor
  · unfold incrementMessageUsage
    simp only [h, Bool.false_eq_true, if_false]
    split <;> rfl
  · intro hf
    unfold incrementMessageUsage
    simp [h, hf]

/-- Witness for C9: with 8 messages remaining and both the fallback read
and write failing, `incrementMessageUsage` still returns `true` and the
row is not updated. -/
theorem incrementMessageUsage_true_whenever_positive_witness :
    (incrementMessageUsage { nowISO := "2026-10-11T09:00:00.000Z" }
        { profileReadOk := true, resetUpdateOk := true
        , fallbackReadOk := false, fallbackWriteOk := false }
        (some { tier := Tier.free, messages_used_today := 2
              , last_usage_reset := "2026-10-11T00:05:00.000Z" })).1 = true
    ∧ incrementMessageUsage { nowISO := "2026-10-11T09:00:00.000Z" }
        { profileReadOk := true, resetUpdateOk := true
        , fallbackReadOk := false, fallbackWriteOk := false }
        (some { tier := Tier.free, messages_used_today := 2
              , last_usage_reset := "2026-10-11T00:05:00.000Z" }) =
      (true,
        (getRemainingMessages { nowISO := "2026-10-11T09:00:00.000Z" }
          { profileReadOk := true, resetUpdateOk := true
          , fallbackReadOk := false, fallbackWriteOk := false }
          (some { tier := Tier.free, messages_used_today := 2
                , last_usage_reset := "2026-10-11T00:05:00.000Z" })).2) := by
  have h := incrementMessageUsage_true_whenever_positive
    { nowISO := "2026-10-11T09:00:00.000Z" }
    { profileReadOk := true, resetUpdateOk := true
    , fallbackReadOk := false, fallbackWriteOk := false }
    (some { tier := Tier.free, messages_used_today := 2
          , last_usage_reset := "2026-10-11T00:05:00.000Z" }) (by decide)
  exact ⟨h.1, h.2 rfl⟩

/-- C10: when the profile select fails or finds no row,
`getRemainingMessages` returns 0 and changes nothing — the quota check
fails closed on read errors for every tier. -/
theorem getRemainingMessages_fails_closed (env : Env) (net : Net) (db : Option UserProfile)
    (h : net.profileReadOk = false ∨ db = none) :
    getRemainingMessages env net db = (JSNum.num 0, db) := by
  unfold getRemainingMessages
  rcases h with h | h
  · simp [h]
  · subst h
    cases net.profileReadOk <;> rfl

/-! ## Claim theorems: chat orchestration -/

/-- C6: a free-tier send of a model outside the free allow-list performs no
inference-API call and no quota consumption, and appends exactly the user's
message followed by one synthesized assistant message whose text contains
"Pro users". -/
theorem sendMessage_locked_model_free_tier (props : ChatProps) (st : ChatState)
    (consumeResult : Bool) (fetch : FetchOutcome)
    (htier : props.tier = Tier.free)
    (hmodel : props.selectedModel ∉ TIER_LIMITS_free_models)
    (hinput : strTrim st.input ≠ "")
    (hload : st.isLoading = false) :
    sendMessage props st consumeResult fetch =
      { messages := st.messages ++
          [mkUserMessage st.input st.attachments, lockedModelMessage props.selectedModel]
      , input := "", attachments := []
      , consumeCalled := false, networkCalled := false, neededApiKey := false }
    ∧ "Pro users".data <:+: (lockedModelMessage props.selectedModel).content.data := by
  have htail : ∃ s t : List Char,
      s ++ "Pro users".data ++ t =
        ("\" is only available to Pro users. Please upgrade to Pro or select a free model in Settings.").data :=
    ⟨("\" is only available to ").data,
     (". Please upgrade to Pro or select a free model in Settings.").data, by decide⟩
  obtain ⟨s, t, hst⟩ := htail
  constructor
  · simp [sendMessage, isModelAvailable, htier, hmodel, hinput, hload]
  · refine ⟨"🔒 The model \"".data ++ props.selectedModel.data ++ s, t, ?_⟩
    simp only [lockedModelMessage, String.data_append] at hst ⊢
    rw [← hst]
    simp [List.append_assoc]

/-- Witness for C6: a free user sending "hello" with the pro-only model id
"openai/gpt-4o" gets the lock message, no network call and no quota use. -/
theorem sendMessage_locked_model_free_tier_witness :
    sendMessage
        { tier := Tier.free, selectedModel := "openai/gpt-4o"
        , remainingMessages := 10, apiKey := "k", envApiKey := "" }
        { messages := [], input := "hello", attachments := [], isLoading := false }
        true FetchOutcome.fail =
      { messages := [ mkUserMessage "hello" []
                    , lockedModelMessage "openai/gpt-4o" ]
      , input := "", attachments := []
      , consumeCalled := false, networkCalled := false, neededApiKey := false }
    ∧ "Pro users".data <:+: (lockedModelMessage "openai/gpt-4o").content.data :=
  sendMessage_locked_model_free_tier
    { tier := Tier.free, selectedModel := "openai/gpt-4o"
    , remainingMessages := 10, apiKey := "k", envApiKey := "" }
    { messages := [], input := "hello", attachments := [], isLoading := false }
    true FetchOutcome.fail rfl (by decide) (by decide) rfl

/-- Helper: the synthesized image placeholder is never the empty string. -/
theorem imagesPlaceholder_ne_empty (n : Nat) : imagesPlaceholder n ≠ "" := by
  intro h
  rw [imagesPlaceholder] at h
  have h2 := congrArg String.data h
  simp [String.data_append] at h2

/-- C7: the displayed primary content of a normalized assistant message
follows the precedence answer text, else reasoning text, else the
"N images generated" placeholder, else the explicit empty-response marker;
the reasoning is kept as collapsible auxiliary detail exactly when it is
non-empty and differs from that primary content; and in particular a
response with empty content, non-empty reasoning and two images shows the
reasoning as primary, attaches both images, and does not duplicate the
reasoning as auxiliary detail. -/
theorem assistant_response_normalization (c r : Option String) (i : Option (List RawImage)) :
    (renderedPrimary (mkAssistantMessage c r i) =
      (if c.getD "" ≠ "" then c.getD ""
       else if r.getD "" ≠ "" then r.getD ""
       else if 0 < (extractGeneratedImages i).length then
         imagesPlaceholder (extractGeneratedImages i).length
       else emptyResponseMarker))
    ∧ ((mkAssistantMessage c r i).reasoning.isSome = true ↔
        (r.getD "" ≠ "" ∧ r.getD "" ≠ renderedPrimary (mkAssistantMessage c r i)))
    ∧ mkAssistantMessage (some "") (some "chain of thought")
        (some [ { image_url_url := some "https://img/0.png", url := none, index := none }
              , { image_url_url := none, url := some "https://img/1.png", index := none } ]) =
      { role := Role.assistant, content := "chain of thought"
      , attachments := none, reasoning := none
      , generatedImages := some [ { url := "https://img/0.png", index := 0 }
                                , { url := "https://img/1.png", index := 1 } ] } := by
  have hcontent : (mkAssistantMessage c r i).content =
      (if c.getD "" ≠ "" then c.getD ""
       else if r.getD "" ≠ "" then r.getD ""
       else if 0 < (extractGeneratedImages i).length then
         imagesPlaceholder (extractGeneratedImages i).length
       else "") := by
    unfold mkAssistantMessage
    by_cases hc : c.getD "" = "" <;> by_cases hr2 : r.getD "" = "" <;>
      by_cases hg : (extractGeneratedImages i).length = 0 <;>
        simp [hc, hr2, hg, Nat.pos_of_ne_zero]
  have hreason : (mkAssistantMessage c r i).reasoning =
      (if r.getD "" ≠ "" ∧ r.getD "" ≠ (mkAssistantMessage c r i).content
       then some (r.getD "") else none) := rfl
  have hgen : (mkAssistantMessage c r i).generatedImages =
      (if 0 < (extractGeneratedImages i).length then some (extractGeneratedImages i)
       else none) := rfl
  have hrole : (mkAssistantMessage c r i).role = Role.assistant := rfl
  have hprimary : renderedPrimary (mkAssistantMessage c r i) =
      (if c.getD "" ≠ "" then c.getD ""
       else if r.getD "" ≠ "" then r.getD ""
       else if 0 < (extractGeneratedImages i).length then
         imagesPlaceholder (extractGeneratedImages i).length
       else emptyResponseMarker) := by
    unfold renderedPrimary
    rw [hcontent, hreason, hgen, hrole, hcontent]
    by_cases hc : c.getD "" = "" <;> by_cases hr2 : r.getD "" = "" <;>
      by_cases hg : (extractGeneratedImages i).length = 0 <;>
        simp [hc, hr2, hg, Nat.pos_of_ne_zero, imagesPlaceholder_ne_empty]
  refine ⟨hprimary, ?_, by decide⟩
  rw [hreason]
  by_cases hc : c.getD "" = ""
  · by_cases hr2 : r.getD "" = ""
    · simp [hc, hr2]
    · simp [hc, hr2, hcontent, hprimary]
  · simp [hc, hcontent, hprimary]

/-! ## Claim theorems: local-first persistence -/

/-- C8: when the first message of a new thread fails to persist remotely
(creation throws, creation resolves null, or a message write throws), the
locally materialized conversation keeps its temporary id and every buffered
message stays visible at the front of the chat list; the failure only lands
in the catch block (a log), never in the local state. -/
theorem updateMessages_persist_failure_keeps_local (nowId : String) (st : AppState)
    (outcome : PersistOutcome) (messages : List Message)
    (hcur : st.currentChatId = none)
    (hfail : ∀ newId, outcome ≠ PersistOutcome.success newId) :
    (updateMessages true nowId st outcome messages).chats =
      { id := "temp-" ++ nowId, title := generateChatTitle messages
      , messages := messages } :: st.chats
    ∧ (updateMessages true nowId st outcome messages).currentChatId =
        some ("temp-" ++ nowId) := by
  unfold updateMessages
  rw [hcur]
  cases outcome with
  | success newId => exact absurd rfl (hfail newId)
  | createThrows => exact ⟨rfl, rfl⟩
  | createNull => exact ⟨rfl, rfl⟩
  | addMessageThrows j => exact ⟨rfl, rfl⟩

/-- Witness for C8: sending "first message" with no current conversation
while the remote create throws leaves the temp-id conversation holding the
message, selected, at the head of the list. -/
theorem updateMessages_persist_failure_keeps_local_witness :
    (updateMessages true "1760169600000" { chats := [], currentChatId := none }
        PersistOutcome.createThrows
        [{ role := Role.user, content := "first message" }]).chats =
      [ { id := "temp-1760169600000", title := "first message"
        , messages := [{ role := Role.user, content := "first message" }] } ]
    ∧ (updateMessages true "1760169600000" { chats := [], currentChatId := none }
        PersistOutcome.createThrows
        [{ role := Role.user, content := "first message" }]).currentChatId =
      some "temp-1760169600000" := by
  have h := updateMessages_persist_failure_keeps_local "1760169600000"
      { chats := [], currentChatId := none } PersistOutcome.createThrows
      [{ role := Role.user, content := "first message" }] rfl
      (by intro newId hne; cases hne)
  constructor
  · rw [h.1]; decide
  · rw [h.2]; decide

/-- Witness for C10: a pro-tier row whose read fails yields 0 remaining
messages, not the unbounded pro allowance. -/
theorem getRemainingMessages_fails_closed_witness :
    getRemainingMessages { nowISO := "2026-10-11T09:00:00.000Z" }
        { profileReadOk := false, resetUpdateOk := true
        , fallbackReadOk := true, fallbackWriteOk := true }
        (some { tier := Tier.pro, messages_used_today := 0
              , last_usage_reset := "2026-10-01T00:00:00.000Z" }) =
      (JSNum.num 0,
        some { tier := Tier.pro, messages_used_today := 0
             , last_usage_reset := "2026-10-01T00:00:00.000Z" }) :=
  getRemainingMessages_fails_closed _ _ _ (Or.inl rfl)

end WebAI
